import Mathlib

/-!
Verification development for the ResNeXt3D video-classification architecture builder
(torchvision/models/video/resnext3d.py).

The architecture-assembly logic is shallowly embedded:
* construction (`__init__` of each module class) is embedded as a function building a
  descriptor record of the constructed sub-modules and their hyperparameters; Python
  exceptions raised during construction (ValueError, AssertionError, IndexError) are
  modelled with `Except ErrK`;
* forward passes are embedded at the tensor-shape level: each tensor primitive
  (Conv3d, BatchNorm3d, ReLU, MaxPool3d, AvgPool3d, Linear, Softmax, Dropout) is an
  external collaborator, so its forward is represented by its documented shape
  semantics, and shape errors are `Except ErrK` errors;
* a small value-level model of `ResBlock.forward` (tensors as integer lists, the
  residual/skip denotations as abstract functions) covers the identity-skip equation;
* a small store model (Python lists as heap references) covers the in-place update
  performed by `ResNeXt3DStemMultiPathway.forward`.
-/

/-- Kinds of run-time / construction-time errors of the embedded code. Each constructor
corresponds to one Python exception site. -/
inductive ErrK
  | stageLengthMismatch
  | stemLengthMismatch
  | indexError
  | keyError
  | assertionError
  | attributeErrorStride
  | addShapeMismatch
  | convChannelMismatch
  | convSizeError
  | bnChannelMismatch
  | poolSizeError
  | matmulShapeMismatch
  | dimOutOfRange
deriving DecidableEq

/-- Python list indexing `l[i]`: IndexError when out of range. -/
def pyIndex {α : Type} (l : List α) (i : Nat) : Except ErrK α :=
  match l.get? i with
  | some v => .ok v
  | none => .error .indexError

deriving instance DecidableEq for Except

/-- Sequencing of embedded computations (the implicit exception propagation of Python). -/
def chainE {α β : Type} (r : Except ErrK α) (f : α → Except ErrK β) : Except ErrK β :=
  match r with
  | .error e => .error e
  | .ok x => f x

/-- Shape of a 5-dimensional tensor (batch, channels, time, height, width). -/
structure Shape5 where
  n : Nat
  c : Nat
  t : Nat
  h : Nat
  w : Nat
deriving DecidableEq

/-- One spatial/temporal output extent of a 3d convolution or pooling:
floor((d + 2p - k) / s) + 1, defined when the kernel fits the padded input. -/
def convOutDim (d k s p : Nat) : Except ErrK Nat :=
  if 1 ≤ k ∧ 1 ≤ s ∧ k ≤ d + 2 * p then .ok ((d + 2 * p - k) / s + 1) else .error .convSizeError

/-- Descriptor of an `nn.Conv3d` sub-module: channel counts and per-axis
kernel / stride / padding, as recorded at construction time. -/
structure Conv3dDesc where
  inC : Nat
  outC : Nat
  kt : Nat
  kh : Nat
  kw : Nat
  st : Nat
  sh : Nat
  sw : Nat
  pt : Nat
  ph : Nat
  pw : Nat
  groups : Nat
deriving DecidableEq

/-- Shape semantics of the Conv3d forward. -/
def conv3dShape (c : Conv3dDesc) (x : Shape5) : Except ErrK Shape5 :=
  if x.c = c.inC then
    match convOutDim x.t c.kt c.st c.pt, convOutDim x.h c.kh c.sh c.ph,
        convOutDim x.w c.kw c.sw c.pw with
    | .ok t2, .ok h2, .ok w2 => .ok ⟨x.n, c.outC, t2, h2, w2⟩
    | _, _, _ => .error .convSizeError
  else .error .convChannelMismatch

/-- Shape semantics of a BatchNorm3d forward: the channel count must equal the
configured feature count; the shape is unchanged. -/
def bnShape (features : Nat) (x : Shape5) : Except ErrK Shape5 :=
  if x.c = features then .ok x else .error .bnChannelMismatch

/-- One output extent of a pooling layer (same formula as the convolution). -/
def poolOutDim (d k s p : Nat) : Except ErrK Nat :=
  if 1 ≤ k ∧ 1 ≤ s ∧ k ≤ d + 2 * p then .ok ((d + 2 * p - k) / s + 1) else .error .poolSizeError

/-- Shape semantics of the stem MaxPool3d, kernel [1,3,3], stride [1,2,2], padding [0,1,1]. -/
def maxPool3dShape (x : Shape5) : Except ErrK Shape5 :=
  match poolOutDim x.t 1 1 0, poolOutDim x.h 3 2 1, poolOutDim x.w 3 2 1 with
  | .ok t2, .ok h2, .ok w2 => .ok ⟨x.n, x.c, t2, h2, w2⟩
  | _, _, _ => .error .poolSizeError

/-- Shape semantics of the head pooling: `nn.AvgPool3d(pool_size, stride=1)` when a
pool size is given, `nn.AdaptiveAvgPool3d((1,1,1))` otherwise. -/
def avgPool3dShape (poolSize : Option (Nat × Nat × Nat)) (x : Shape5) : Except ErrK Shape5 :=
  match poolSize with
  | some (kt, kh, kw) =>
    match poolOutDim x.t kt 1 0, poolOutDim x.h kh 1 0, poolOutDim x.w kw 1 0 with
    | .ok t2, .ok h2, .ok w2 => .ok ⟨x.n, x.c, t2, h2, w2⟩
    | _, _, _ => .error .poolSizeError
  | none => .ok ⟨x.n, x.c, 1, 1, 1⟩

/-- Initialization state of a learnable parameter tensor. `torchDefault` is the state
right after the layer constructor ran; the other states are produced by the
initialization policy of `ResNeXt3D._init_parameter`. -/
inductive ParamInit
  | torchDefault
  | normalStd001
  | constZero
deriving DecidableEq

/-- Descriptor of an `nn.Linear` sub-module together with the initialization state of
its weight and bias. -/
structure LinearDesc where
  inFeatures : Nat
  outFeatures : Nat
  weightInit : ParamInit
  biasInit : ParamInit
deriving DecidableEq

/-- `nn.Linear(in_features, out_features, bias=True)`: parameters start in the
framework default initialization. -/
def nnLinearNew (inFeatures outFeatures : Nat) : LinearDesc :=
  { inFeatures := inFeatures, outFeatures := outFeatures,
    weightInit := .torchDefault, biasInit := .torchDefault }

/-- The `nn.Linear` branch of `ResNeXt3D._init_parameter`: weights are redrawn from a
normal distribution with std 0.01 and the bias is set to the constant 0. -/
def initLinearPolicy (l : LinearDesc) : LinearDesc :=
  { l with weightInit := .normalStd001, biasInit := .constZero }

/-- The two skip-transformation classes of the module. -/
inductive SkipClassName
  | postactivatedShortcutTransformation
  | preactivatedShortcutTransformation
deriving DecidableEq

/-- The two residual-transformation classes of the module. -/
inductive ResidualClassName
  | postactivatedBottleneckTransformation
  | preactivatedBottleneckTransformation
deriving DecidableEq

/-- Models the check `isinstance(residual_transformation, PreactivatedBottleneckTransformation)`
in `ResStage.__init__`. At every call site `residual_transformation` is the class object
itself (it is later called as a constructor in `ResBlock.__init__`), and in Python the
type of a class object is `type`, which is not a subclass of
`PreactivatedBottleneckTransformation`; hence the check is false for both classes. -/
def isinstancePreactBottleneck : ResidualClassName → Bool := fun _ => false

/-- Descriptor of a constructed skip transformation. `postact` holds the 1x1x1
projection convolution and the feature count of the trailing BatchNorm3d; `preact`
records whether the leading BatchNorm3d+ReLU pair was constructed, the feature count
of that BatchNorm3d, and the projection convolution. Only the pre-activated variant
assigns a `self.stride` attribute. -/
inductive SkipDesc
  | postact (branch1 : Conv3dDesc) (bnFeatures : Nat)
  | preact (preActEnabled : Bool) (bnFeatures : Nat) (branch1 : Conv3dDesc)
deriving DecidableEq

/-- Whether the constructed skip module carries a `stride` attribute:
`PreactivatedShortcutTransformation.__init__` assigns `self.stride`, the
post-activated variant does not. -/
def SkipDesc.hasStrideAttr : SkipDesc → Bool
  | .postact _ _ => false
  | .preact _ _ _ => true

/-- The debug print `print(self.skip.stride)` in `ResBlock.forward` fails with an
AttributeError exactly when the skip is a module without a `stride` attribute. -/
def strideAttrMissing : Option SkipDesc → Bool
  | none => false
  | some sk => !sk.hasStrideAttr

/-- The 1x1x1 projection convolution shared by both shortcut transformations:
kernel size 1, stride [temporal_stride, spatial_stride, spatial_stride], padding 0. -/
def conv1x1x1 (inC outC temporalStride spatialStride : Nat) : Conv3dDesc :=
  { inC := inC, outC := outC, kt := 1, kh := 1, kw := 1,
    st := temporalStride, sh := spatialStride, sw := spatialStride,
    pt := 0, ph := 0, pw := 0, groups := 1 }

/-- `PostactivatedShortcutTransformation.__init__`: asserts that a projection is
needed, then builds the 1x1x1 convolution and its BatchNorm3d. -/
def postactivatedShortcutInit (dimIn dimOut temporalStride spatialStride : Nat) :
    Except ErrK SkipDesc :=
  if dimIn ≠ dimOut ∨ spatialStride ≠ 1 ∨ temporalStride ≠ 1 then
    .ok (.postact (conv1x1x1 dimIn dimOut temporalStride spatialStride) dimOut)
  else .error .assertionError

/-- `PreactivatedShortcutTransformation.__init__`: asserts that a projection is
needed; builds the leading BatchNorm3d+ReLU pair unless pre-activation is disabled,
then the 1x1x1 convolution, and records `self.stride`. -/
def preactivatedShortcutInit (dimIn dimOut temporalStride spatialStride : Nat)
    (disablePreActivation : Bool) : Except ErrK SkipDesc :=
  if dimIn ≠ dimOut ∨ spatialStride ≠ 1 ∨ temporalStride ≠ 1 then
    .ok (.preact (!disablePreActivation) dimIn (conv1x1x1 dimIn dimOut temporalStride spatialStride))
  else .error .assertionError

/-- Shape semantics of the skip-transformation forwards. ReLU layers keep the shape. -/
def skipForwardShape : SkipDesc → Shape5 → Except ErrK Shape5
  | .postact branch1 bnFeatures, x => chainE (conv3dShape branch1 x) (bnShape bnFeatures)
  | .preact preActEnabled bnFeatures branch1, x =>
    chainE (if preActEnabled then bnShape bnFeatures x else .ok x) (conv3dShape branch1)

/-- Descriptor of a constructed residual (bottleneck) transformation: the three
convolutions and the feature counts of the BatchNorm3d layers, in source order. -/
inductive ResidualDesc
  | postact (branch2a : Conv3dDesc) (bn2a : Nat) (branch2b : Conv3dDesc) (bn2b : Nat)
      (branch2c : Conv3dDesc) (bn2c : Nat)
  | preact (disablePreActivation : Bool) (bn2a : Nat) (branch2a : Conv3dDesc) (bn2b : Nat)
      (branch2b : Conv3dDesc) (bn2c : Nat) (branch2c : Conv3dDesc)
deriving DecidableEq

/-- `PostactivatedBottleneckTransformation.__init__`: Tx1x1, Tx3x3 (grouped, carries the
stage stride), 1x1x1 convolutions with interleaved BatchNorm3d layers. The temporal
kernel extent goes to the first or second convolution according to
`temporal_conv_1x1`; the spatial stride placement follows `spatial_stride_1x1`. -/
def postactivatedBottleneckInit (dimIn dimOut temporalStride spatialStride numGroups dimInner
    temporalKernelSize : Nat) (temporalConv1x1 spatialStride1x1 : Bool) : ResidualDesc :=
  let tk1x1 := if temporalConv1x1 then temporalKernelSize else 1
  let tk3x3 := if temporalConv1x1 then 1 else temporalKernelSize
  let str1x1 := if spatialStride1x1 then spatialStride else 1
  let str3x3 := if spatialStride1x1 then 1 else spatialStride
  .postact
    { inC := dimIn, outC := dimInner, kt := tk1x1, kh := 1, kw := 1,
      st := 1, sh := str1x1, sw := str1x1, pt := tk1x1 / 2, ph := 0, pw := 0, groups := 1 }
    dimInner
    { inC := dimInner, outC := dimInner, kt := tk3x3, kh := 3, kw := 3,
      st := temporalStride, sh := str3x3, sw := str3x3, pt := tk3x3 / 2, ph := 1, pw := 1,
      groups := numGroups }
    dimInner
    { inC := dimInner, outC := dimOut, kt := 1, kh := 1, kw := 1,
      st := 1, sh := 1, sw := 1, pt := 0, ph := 0, pw := 0, groups := 1 }
    dimOut

/-- `PreactivatedBottleneckTransformation.__init__`: same three convolutions, with the
BatchNorm3d+ReLU pairs moved before each convolution; the first pair is replaced by
identities when `disable_pre_activation` is set. -/
def preactivatedBottleneckInit (dimIn dimOut temporalStride spatialStride numGroups dimInner
    temporalKernelSize : Nat) (temporalConv1x1 spatialStride1x1 disablePreActivation : Bool) :
    ResidualDesc :=
  let tk1x1 := if temporalConv1x1 then temporalKernelSize else 1
  let tk3x3 := if temporalConv1x1 then 1 else temporalKernelSize
  let str1x1 := if spatialStride1x1 then spatialStride else 1
  let str3x3 := if spatialStride1x1 then 1 else spatialStride
  .preact disablePreActivation dimIn
    { inC := dimIn, outC := dimInner, kt := tk1x1, kh := 1, kw := 1,
      st := 1, sh := str1x1, sw := str1x1, pt := tk1x1 / 2, ph := 0, pw := 0, groups := 1 }
    dimInner
    { inC := dimInner, outC := dimInner, kt := tk3x3, kh := 3, kw := 3,
      st := temporalStride, sh := str3x3, sw := str3x3, pt := tk3x3 / 2, ph := 1, pw := 1,
      groups := numGroups }
    dimInner
    { inC := dimInner, outC := dimOut, kt := 1, kh := 1, kw := 1,
      st := 1, sh := 1, sw := 1, pt := 0, ph := 0, pw := 0, groups := 1 }

/-- Shape semantics of the residual-transformation forwards (ReLU layers keep the
shape; the disabled leading pair of the pre-activated variant is an identity). -/
def residualForwardShape : ResidualDesc → Shape5 → Except ErrK Shape5
  | .postact branch2a bn2a branch2b bn2b branch2c bn2c, x =>
    chainE (conv3dShape branch2a x) fun x =>
    chainE (bnShape bn2a x) fun x =>
    chainE (conv3dShape branch2b x) fun x =>
    chainE (bnShape bn2b x) fun x =>
    chainE (conv3dShape branch2c x) fun x =>
    bnShape bn2c x
  | .preact disablePreActivation bn2a branch2a bn2b branch2b bn2c branch2c, x =>
    chainE (if disablePreActivation then .ok x else bnShape bn2a x) fun x =>
    chainE (conv3dShape branch2a x) fun x =>
    chainE (bnShape bn2b x) fun x =>
    chainE (conv3dShape branch2b x) fun x =>
    chainE (bnShape bn2c x) fun x =>
    conv3dShape branch2c x

/-- Dispatch of the `skip_transformation` constructor callable in `ResBlock.__init__`.
The post-activated shortcut absorbs `disable_pre_activation` in its `**kwargs`. -/
def skipCtor (c : SkipClassName) (dimIn dimOut temporalStride spatialStride : Nat)
    (disablePreActivation : Bool) : Except ErrK SkipDesc :=
  match c with
  | .postactivatedShortcutTransformation =>
    postactivatedShortcutInit dimIn dimOut temporalStride spatialStride
  | .preactivatedShortcutTransformation =>
    preactivatedShortcutInit dimIn dimOut temporalStride spatialStride disablePreActivation

/-- Dispatch of the `residual_transformation` constructor callable in
`ResBlock.__init__`. `spatial_stride_1x1` is not passed by `ResBlock`, so the source
default `False` applies; the post-activated bottleneck absorbs
`disable_pre_activation` in its `**kwargs`. -/
def residualCtor (c : ResidualClassName) (dimIn dimOut temporalStride spatialStride numGroups
    dimInner temporalKernelSize : Nat) (temporalConv1x1 disablePreActivation : Bool) :
    ResidualDesc :=
  match c with
  | .postactivatedBottleneckTransformation =>
    postactivatedBottleneckInit dimIn dimOut temporalStride spatialStride numGroups dimInner
      temporalKernelSize temporalConv1x1 false
  | .preactivatedBottleneckTransformation =>
    preactivatedBottleneckInit dimIn dimOut temporalStride spatialStride numGroups dimInner
      temporalKernelSize temporalConv1x1 false disablePreActivation

/-- Descriptor of a constructed `ResBlock`: the optional skip projection
(`none` models `nn.Identity()`) and the residual transformation. -/
structure ResBlockDesc where
  skip : Option SkipDesc
  residual : ResidualDesc
deriving DecidableEq

/-- `ResBlock.__init__`: the skip projection is built through the skip-transformation
constructor exactly when channels or one of the strides change; otherwise the skip is
the identity. The residual transformation is always built. -/
def resBlockInit (dimIn dimOut dimInner temporalKernelSize : Nat) (temporalConv1x1 : Bool)
    (temporalStride spatialStride : Nat) (skipTransformation : SkipClassName)
    (residualTransformation : ResidualClassName) (numGroups : Nat)
    (disablePreActivation : Bool) : Except ErrK ResBlockDesc :=
  match (if dimIn ≠ dimOut ∨ spatialStride ≠ 1 ∨ temporalStride ≠ 1 then
      (skipCtor skipTransformation dimIn dimOut temporalStride spatialStride
        disablePreActivation).map some
    else .ok none) with
  | .error e => .error e
  | .ok skip =>
    .ok { skip := skip,
          residual := residualCtor residualTransformation dimIn dimOut temporalStride
            spatialStride numGroups dimInner temporalKernelSize temporalConv1x1
            disablePreActivation }

/-- Shape semantics of `ResBlock.forward`: compute the skip and residual outputs, run
the debug prints (when `debug` is set, `print(self.skip.stride)` raises an
AttributeError for a post-activated shortcut, which assigns no `stride` attribute),
then add the two outputs elementwise and apply the final ReLU. -/
def resBlockForwardShape (debug : Bool) (b : ResBlockDesc) (x : Shape5) :
    Except ErrK Shape5 :=
  chainE (match b.skip with
          | none => .ok x
          | some sk => skipForwardShape sk x) fun skipOut =>
  chainE (residualForwardShape b.residual x) fun residualOut =>
  if debug && strideAttrMissing b.skip then .error .attributeErrorStride
  else if skipOut = residualOut then .ok skipOut else .error .addShapeMismatch

/-- The layers making up one pathway of a `ResStage` (an `nn.Sequential`): residual
blocks, optionally followed by a trailing BatchNorm3d and ReLU. -/
inductive PathwayLayer
  | block (b : ResBlockDesc)
  | bn (features : Nat)
  | relu
deriving DecidableEq

/-- Whether a pathway layer is a residual block. -/
def PathwayLayer.isBlock : PathwayLayer → Bool
  | .block _ => true
  | _ => false

/-- Number of non-block layers at the end of a pathway (the appended trailing
normalization/activation layers, if any). -/
def trailingNonBlockCount (layers : List PathwayLayer) : Nat :=
  (layers.reverse.takeWhile fun l => !l.isBlock).length

/-- Shape semantics of one pathway layer. -/
def layerForwardShape (debug : Bool) : PathwayLayer → Shape5 → Except ErrK Shape5
  | .block b, x => resBlockForwardShape debug b x
  | .bn features, x => bnShape features x
  | .relu, x => .ok x

/-- Shape semantics of an `nn.Sequential` pathway. -/
def pathwayForwardShape (debug : Bool) : List PathwayLayer → Shape5 → Except ErrK Shape5
  | [], x => .ok x
  | l :: ls, x => chainE (layerForwardShape debug l x) (pathwayForwardShape debug ls)

/-- The per-pathway per-block temporal kernel sizes computed by `ResStage.__init__`:
`(temporal_kernel_basis[i] * num_blocks[i])[: num_blocks[i]]`, i.e. the basis list
repeated `num_blocks[i]` times and truncated to the first `num_blocks[i]` entries. -/
def temporalKernelSizesOf (temporalKernelBasis : List (List Nat)) (numBlocks : List Nat) :
    List (List Nat) :=
  (List.range temporalKernelBasis.length).map fun i =>
    (List.flatten (List.replicate (numBlocks.getD i 0) (temporalKernelBasis.getD i []))).take
      (numBlocks.getD i 0)

/-- The block loop of `ResStage.__init__` for one pathway: block `i` of `remaining`
blocks. Only block 0 receives the stage stride and the `dim_in` to `dim_out` channel
transition; `disable_pre_activation` is forwarded only to block 0. The temporal kernel
size is read by Python indexing from the pathway's derived size list. -/
def buildBlocksGo (skipT : SkipClassName) (residT : ResidualClassName)
    (dimIn dimOut dimInner : Nat) (tks : List Nat) (temporalConv1x1 : Bool)
    (temporalStride spatialStride numGroups : Nat) (disablePreActivation : Bool) :
    Nat → Nat → Except ErrK (List PathwayLayer)
  | 0, _ => .ok []
  | remaining + 1, i =>
    chainE (pyIndex tks i) fun tk =>
    chainE (resBlockInit (if i = 0 then dimIn else dimOut) dimOut dimInner tk temporalConv1x1
        (if i = 0 then temporalStride else 1) (if i = 0 then spatialStride else 1)
        skipT residT numGroups (disablePreActivation && i == 0)) fun b =>
    match buildBlocksGo skipT residT dimIn dimOut dimInner tks temporalConv1x1 temporalStride
        spatialStride numGroups disablePreActivation remaining (i + 1) with
    | .error e => .error e
    | .ok rest => .ok (.block b :: rest)

/-- The pathway loop of `ResStage.__init__`: for each pathway, build its blocks and,
when this is the final stage and the `isinstance` check on the residual-transformation
argument succeeds, append a trailing BatchNorm3d and ReLU. -/
def buildPathwaysGo (skipT : SkipClassName) (residT : ResidualClassName)
    (dimIn dimOut dimInner : List Nat) (tks : List (List Nat)) (temporalConv1x1 : List Bool)
    (temporalStride spatialStride numBlocks numGroups : List Nat)
    (disablePreActivation finalStage : Bool) :
    Nat → Nat → Except ErrK (List (List PathwayLayer))
  | 0, _ => .ok []
  | remaining + 1, p =>
    chainE (buildBlocksGo skipT residT (dimIn.getD p 0) (dimOut.getD p 0) (dimInner.getD p 0)
        (tks.getD p []) (temporalConv1x1.getD p true) (temporalStride.getD p 1)
        (spatialStride.getD p 1) (numGroups.getD p 1) disablePreActivation
        (numBlocks.getD p 0) 0) fun blocks =>
    match buildPathwaysGo skipT residT dimIn dimOut dimInner tks temporalConv1x1
        temporalStride spatialStride numBlocks numGroups disablePreActivation finalStage
        remaining (p + 1) with
    | .error e => .error e
    | .ok rest =>
      .ok ((blocks ++
        (if finalStage && isinstancePreactBottleneck residT then
          [PathwayLayer.bn (dimOut.getD p 0), PathwayLayer.relu]
        else [])) :: rest)

/-- Descriptor of a constructed `ResStage`. -/
structure ResStageDesc where
  stageIdx : Nat
  numBlocks : List Nat
  temporalKernelSizes : List (List Nat)
  pathways : List (List PathwayLayer)
deriving DecidableEq

/-- `ResStage.__init__`: first validates that the nine per-pathway argument lists have
equal length (the source collects the nine lengths into a set and requires the set to
be a singleton), raising a ValueError before any block is built; then derives the
per-block temporal kernel sizes and builds the per-pathway block sequences. -/
def resStageInit (stageIdx : Nat) (dimIn dimOut dimInner : List Nat)
    (temporalKernelBasis : List (List Nat)) (temporalConv1x1 : List Bool)
    (temporalStride spatialStride numBlocks numGroups : List Nat)
    (skipTransformation : SkipClassName) (residualTransformation : ResidualClassName)
    (disablePreActivation finalStage : Bool) : Except ErrK ResStageDesc :=
  if [dimIn.length, dimOut.length, temporalKernelBasis.length, temporalConv1x1.length,
      temporalStride.length, spatialStride.length, numBlocks.length, dimInner.length,
      numGroups.length].dedup.length ≠ 1 then
    .error .stageLengthMismatch
  else
    match buildPathwaysGo skipTransformation residualTransformation dimIn dimOut dimInner
        (temporalKernelSizesOf temporalKernelBasis numBlocks)
        temporalConv1x1 temporalStride spatialStride numBlocks numGroups
        disablePreActivation finalStage numBlocks.length 0 with
    | .error e => .error e
    | .ok pathways =>
      .ok { stageIdx := stageIdx, numBlocks := numBlocks,
            temporalKernelSizes := temporalKernelSizesOf temporalKernelBasis numBlocks,
            pathways := pathways }

/-- Shape semantics of `ResStage.forward`: pathway `p` processes `inputs[p]`
(an IndexError when the input list is shorter than the pathway count); outputs are
collected in pathway order. -/
def resStageForwardShape (debug : Bool) :
    List (List PathwayLayer) → List Shape5 → Except ErrK (List Shape5)
  | [], _ => .ok []
  | _ :: _, [] => .error .indexError
  | pw :: pws, x :: xs =>
    chainE (pathwayForwardShape debug pw x) fun y =>
    match resStageForwardShape debug pws xs with
    | .error e => .error e
    | .ok ys => .ok (y :: ys)

/-- Descriptor of a constructed `ResNeXt3DStemSinglePathway`. -/
structure SingleStemDesc where
  conv : Conv3dDesc
  bnFeatures : Nat
  maxpool : Bool
deriving DecidableEq

/-- `ResNeXt3DStemSinglePathway.__init__` / `_construct_stem`. -/
def resNeXt3DStemSinglePathwayInit (dimIn dimOut : Nat) (kernel stride padding : Nat × Nat × Nat)
    (maxpool : Bool) : SingleStemDesc :=
  { conv := { inC := dimIn, outC := dimOut, kt := kernel.1, kh := kernel.2.1, kw := kernel.2.2,
              st := stride.1, sh := stride.2.1, sw := stride.2.2,
              pt := padding.1, ph := padding.2.1, pw := padding.2.2, groups := 1 },
    bnFeatures := dimOut, maxpool := maxpool }

/-- Shape semantics of `ResNeXt3DStemSinglePathway.forward`: conv, BatchNorm3d, ReLU,
then the MaxPool3d when configured. -/
def singleStemForwardShape (s : SingleStemDesc) (x : Shape5) : Except ErrK Shape5 :=
  chainE (conv3dShape s.conv x) fun x =>
  chainE (bnShape s.bnFeatures x) fun x =>
  if s.maxpool then maxPool3dShape x else .ok x

/-- Descriptor of a constructed `ResNeXt3DStemMultiPathway`. -/
structure MultiStemDesc where
  blocks : List SingleStemDesc
deriving DecidableEq

/-- `ResNeXt3DStemMultiPathway.__init__`: validates that the five per-pathway argument
lists have equal length (ValueError otherwise) before constructing the per-pathway
stems. The single-pathway stems are constructed without a `maxpool` argument, so the
source default `maxpool=True` applies. -/
def resNeXt3DStemMultiPathwayInit (dimIn dimOut : List Nat)
    (kernel stride padding : List (Nat × Nat × Nat)) : Except ErrK MultiStemDesc :=
  if dimIn.length ≠ dimOut.length ∨ dimIn.length ≠ kernel.length ∨
      dimIn.length ≠ stride.length ∨ dimIn.length ≠ padding.length then
    .error .stemLengthMismatch
  else
    .ok { blocks := (List.range dimIn.length).map fun p =>
            resNeXt3DStemSinglePathwayInit (dimIn.getD p 0) (dimOut.getD p 0)
              (kernel.getD p (0, 0, 0)) (stride.getD p (0, 0, 0)) (padding.getD p (0, 0, 0))
              true }

/-- Shape semantics of `ResNeXt3DStemMultiPathway.forward`: element `p` of the input
list goes through stem `p` (a missing stem for an index is a KeyError on the
stem-name dictionary lookup). The in-place update behaviour is modelled separately in
the store model below. -/
def multiStemForwardShape : List SingleStemDesc → List Shape5 → Except ErrK (List Shape5)
  | _, [] => .ok []
  | [], _ :: _ => .error .keyError
  | b :: bs, x :: xs =>
    chainE (singleStemForwardShape b x) fun y =>
    match multiStemForwardShape bs xs with
    | .error e => .error e
    | .ok ys => .ok (y :: ys)

/-- `ResNeXt3DStem.__init__` / `_construct_stem`: a multi-pathway stem for exactly one
pathway, stride [1,2,2], padding half the kernel in each dimension. The received
`maxpool` flag is not forwarded to the multi-pathway stem (the source drops it). -/
def resNeXt3DStemInit (temporalKernel spatialKernel inputPlanes stemPlanes : Nat)
    (_stemMaxpool : Bool) : Except ErrK MultiStemDesc :=
  resNeXt3DStemMultiPathwayInit [inputPlanes] [stemPlanes]
    [(temporalKernel, spatialKernel, spatialKernel)] [(1, 2, 2)]
    [(temporalKernel / 2, spatialKernel / 2, spatialKernel / 2)]

/-- Descriptor of a constructed `FullyConvolutionalLinear`: the projection Linear and
the dimension argument of its `nn.Softmax`. -/
structure FCLDesc where
  projection : LinearDesc
  softmaxDim : Nat
deriving DecidableEq

/-- `FullyConvolutionalLinear.__init__`: an `nn.Linear(dim_in, num_classes)` and an
`nn.Softmax(dim=4)` (the class axis of the permuted tensor). -/
def fullyConvolutionalLinearInit (dimIn numClasses : Nat) : FCLDesc :=
  { projection := nnLinearNew dimIn numClasses, softmaxDim := 4 }

/-- Shape semantics of `nn.Linear` applied to a tensor whose last dimension must equal
`in_features`; that dimension becomes `out_features`. -/
def linearLastDim (l : LinearDesc) : List Nat → Except ErrK (List Nat)
  | [] => .error .matmulShapeMismatch
  | [d] => if d = l.inFeatures then .ok [l.outFeatures] else .error .matmulShapeMismatch
  | d :: d2 :: rest =>
    match linearLastDim l (d2 :: rest) with
    | .error e => .error e
    | .ok out => .ok (d :: out)

/-- Shape semantics of `nn.Softmax(dim=k)`: shape preserved, the dimension must exist. -/
def softmaxShape (dim : Nat) (dims : List Nat) : Except ErrK (List Nat) :=
  if dim < dims.length then .ok dims else .error .dimOutOfRange

/-- Shape semantics of `Tensor.mean(dims)`: the listed dimensions are reduced away. -/
def meanDims (ds : List Nat) (dims : List Nat) : List Nat :=
  (dims.enum.filter fun p => !(ds.contains p.1)).map Prod.snd

/-- Shape semantics of `Tensor.flatten(start_dim)`: the dimensions from `start_dim` on
are collapsed into their product. -/
def flattenFrom (startDim : Nat) (dims : List Nat) : List Nat :=
  dims.take startDim ++ [(dims.drop startDim).prod]

/-- Shape semantics of `FullyConvolutionalLinear.forward`: permute (N,C,T,H,W) to
(N,T,H,W,C), apply the Linear on the last axis; in inference mode (`training = false`)
additionally apply the softmax and the mean over dimensions [1,2,3]; finally flatten
from dimension 1. -/
def fullyConvolutionalLinearForwardShape (f : FCLDesc) (training : Bool) (x : Shape5) :
    Except ErrK (List Nat) :=
  chainE (linearLastDim f.projection [x.n, x.t, x.h, x.w, x.c]) fun projected =>
  chainE (if training then .ok projected
          else chainE (softmaxShape f.softmaxDim projected) fun s => .ok (meanDims [1, 2, 3] s))
    fun z => .ok (flattenFrom 1 z)

/-- Descriptor of a constructed `FullyConvolutionalLinearHead`. -/
structure HeadDesc where
  poolSize : Option (Nat × Nat × Nat)
  useDropout : Bool
  fcl : FCLDesc
deriving DecidableEq

/-- `FullyConvolutionalLinearHead.__init__`. -/
def fullyConvolutionalLinearHeadInit (numClasses inPlane : Nat)
    (poolSize : Option (Nat × Nat × Nat)) (useDropout : Bool) : HeadDesc :=
  { poolSize := poolSize, useDropout := useDropout,
    fcl := fullyConvolutionalLinearInit inPlane numClasses }

/-- Shape semantics of `FullyConvolutionalLinearHead.forward`: the pooling layer, the
(shape-preserving) dropout, then the fully-convolutional linear projection. -/
def headForwardShape (h : HeadDesc) (training : Bool) (x : Shape5) : Except ErrK (List Nat) :=
  chainE (avgPool3dShape h.poolSize x) fun pooled =>
  fullyConvolutionalLinearForwardShape h.fcl training pooled

/-- The constructor hyperparameters of `ResNeXt3D.__init__`, in source order. -/
structure ResNeXt3DCfg where
  inputPlanes : Nat
  clipCropSize : Nat
  skipTransformation : SkipClassName
  residualTransformation : ResidualClassName
  framesPerClip : Nat
  numBlocks : List Nat
  stemPlanes : Nat
  stemTemporalKernel : Nat
  stemSpatialKernel : Nat
  stemMaxpool : Bool
  stagePlanes : Nat
  stageTemporalKernelBasis : List (List Nat)
  temporalConv1x1 : List Bool
  stageTemporalStride : List Nat
  stageSpatialStride : List Nat
  numGroups : Nat
  widthPerGroup : Nat
  zeroInitResidualTransform : Bool
  headPoolSize : Option (Nat × Nat × Nat)
  numClasses : Nat

/-- Descriptor of a constructed `ResNeXt3D` model. -/
structure ResNeXt3DDesc where
  stem : MultiStemDesc
  stages : List ResStageDesc
  head : HeadDesc
deriving DecidableEq

/-- The stage loop of `ResNeXt3D.__init__`: stage `s` reads the per-stage schedules by
Python indexing and builds a single-pathway `ResStage`, with pre-activation disabled
for stage 0 and the last stage marked final. -/
def buildStagesGo (cfg : ResNeXt3DCfg) (inPlanes outPlanes innerPlanes : List Nat)
    (numStages : Nat) : Nat → Nat → Except ErrK (List ResStageDesc)
  | 0, _ => .ok []
  | remaining + 1, s =>
    chainE (pyIndex inPlanes s) fun inp =>
    chainE (pyIndex outPlanes s) fun outp =>
    chainE (pyIndex innerPlanes s) fun innerp =>
    chainE (pyIndex cfg.stageTemporalKernelBasis s) fun basis =>
    chainE (pyIndex cfg.temporalConv1x1 s) fun tc =>
    chainE (pyIndex cfg.stageTemporalStride s) fun ts =>
    chainE (pyIndex cfg.stageSpatialStride s) fun ss =>
    chainE (pyIndex cfg.numBlocks s) fun nb =>
    chainE (resStageInit (s + 1) [inp] [outp] [innerp] [basis] [tc] [ts] [ss] [nb]
        [cfg.numGroups] cfg.skipTransformation cfg.residualTransformation
        (s == 0) (s == numStages - 1)) fun stage =>
    match buildStagesGo cfg inPlanes outPlanes innerPlanes numStages remaining (s + 1) with
    | .error e => .error e
    | .ok rest => .ok (stage :: rest)

/-- `ResNeXt3D.__init__`: builds the stem, computes the per-stage channel schedules
(`out = stage_planes * 2^s`, `in` chained from the stem, `inner = num_groups *
width_per_group * 2^s`), builds the stages, runs `_init_parameter`, and only then
constructs the head with its hard-coded `in_plane=2048`. At the point where
`_init_parameter` iterates over `self.modules()`, the model holds the stem and stages
only; these contain no `nn.Linear`, so the Linear branch of the policy never runs, and
the head Linear created afterwards keeps the framework default initialization. -/
def resNeXt3DInit (cfg : ResNeXt3DCfg) : Except ErrK ResNeXt3DDesc :=
  chainE (resNeXt3DStemInit cfg.stemTemporalKernel cfg.stemSpatialKernel cfg.inputPlanes
      cfg.stemPlanes cfg.stemMaxpool) fun stem =>
  let numStages := cfg.numBlocks.length
  let outPlanes := (List.range numStages).map fun i => cfg.stagePlanes * 2 ^ i
  let inPlanes := cfg.stemPlanes :: outPlanes.dropLast
  let innerPlanes := (List.range numStages).map fun i => cfg.numGroups * cfg.widthPerGroup * 2 ^ i
  chainE (buildStagesGo cfg inPlanes outPlanes innerPlanes numStages numStages 0) fun stages =>
  .ok { stem := stem, stages := stages,
        head := fullyConvolutionalLinearHeadInit cfg.numClasses 2048 cfg.headPoolSize true }

/-- The stage fold of `ResNeXt3D.forward`. -/
def stagesForwardShape (debug : Bool) : List ResStageDesc → List Shape5 → Except ErrK (List Shape5)
  | [], xs => .ok xs
  | st :: sts, xs =>
    chainE (resStageForwardShape debug st.pathways xs) (stagesForwardShape debug sts)

/-- Shape semantics of `ResNeXt3D.forward`: wrap the input in a one-element pathway
list, run the stem and the stages, take element 0 of the final pathway list, and run
the head. `debug` keeps or removes the diagnostic print statements of
`ResBlock.forward`; `training` selects the train/inference behaviour of the head. -/
def resNeXt3DForwardShape (debug training : Bool) (m : ResNeXt3DDesc) (x : Shape5) :
    Except ErrK (List Nat) :=
  chainE (multiStemForwardShape m.stem.blocks [x]) fun out =>
  chainE (stagesForwardShape debug m.stages out) fun out =>
  match out.get? 0 with
  | none => .error .indexError
  | some x0 => headForwardShape m.head training x0

/-- Value-level tensor for the `ResBlock.forward` model: a flattened list of integer
entries (the numeric primitives are external, so only elementwise addition and the
ReLU are interpreted). -/
abbrev TensorV := List Int

/-- Elementwise tensor addition (`skip_out + residual_out`). -/
def addV (a b : TensorV) : TensorV := List.zipWith (· + ·) a b

/-- Elementwise ReLU (`nn.ReLU`). -/
def reluV (a : TensorV) : TensorV := a.map fun v => max v 0

/-- Value-level descriptor of a constructed `ResBlock`: the skip is either the
identity (`none`) or a projection module of the given class whose denotation is an
abstract tensor function; the residual denotation is likewise abstract. -/
structure ResBlockV where
  skip : Option (SkipClassName × (TensorV → TensorV))
  residual : TensorV → TensorV

/-- Value-level `ResBlock.__init__`: the skip projection is instantiated exactly when
channels or one of the strides change, otherwise the skip is `nn.Identity()`. -/
def resBlockVInit (dimIn dimOut temporalStride spatialStride : Nat)
    (skipTransformation : SkipClassName) (skipFun residualFun : TensorV → TensorV) :
    ResBlockV :=
  if dimIn ≠ dimOut ∨ spatialStride ≠ 1 ∨ temporalStride ≠ 1 then
    { skip := some (skipTransformation, skipFun), residual := residualFun }
  else
    { skip := none, residual := residualFun }

/-- Value-level `ResBlock.forward`: `skip_out` is the input itself for an identity
skip; the debug print of `self.skip.stride` only runs for a non-identity skip and
raises an AttributeError for the post-activated shortcut class (which assigns no
`stride` attribute); then the outputs are added and the final ReLU applied. -/
def resBlockVForward (b : ResBlockV) (x : TensorV) : Except ErrK TensorV :=
  match b.skip with
  | none => .ok (reluV (addV x (b.residual x)))
  | some (cls, f) =>
    if cls = SkipClassName.postactivatedShortcutTransformation then .error .attributeErrorStride
    else .ok (reluV (addV (f x) (b.residual x)))

/-- Heap of Python list objects, addressed by object identity. -/
abbrev Store (α : Type) := Nat → List α

/-- Overwrite the list object at one address. -/
def storeUpdate {α : Type} (σ : Store α) (r : Nat) (l : List α) : Store α :=
  fun q => if q = r then l else σ q

/-- The loop body of `ResNeXt3DStemMultiPathway.forward`:
`x[p] = self.blocks[self._stem_name(p)].forward(x[p])` for `p in range(len(x))`; a
`p` beyond the configured pathway count is a KeyError on the stem dictionary. -/
def multiStemApply {α : Type} : List (α → α) → List α → Except ErrK (List α)
  | _, [] => .ok []
  | [], _ :: _ => .error .keyError
  | f :: fs, x :: xs =>
    match multiStemApply fs xs with
    | .error e => .error e
    | .ok rest => .ok (f x :: rest)

/-- Store-level `ResNeXt3DStemMultiPathway.forward`: the list object passed by
reference `r` is updated in place, element by element, and the same reference is
returned (`return x`). -/
def multiStemForwardStore {α : Type} (blocks : List (α → α)) (σ : Store α) (r : Nat) :
    Except ErrK (Store α × Nat) :=
  match multiStemApply blocks (σ r) with
  | .error e => .error e
  | .ok l => .ok (storeUpdate σ r l, r)

/-- The hyperparameters fixed by the factory `resnext3d_preact_i3d50`. -/
def preactI3D50Cfg : ResNeXt3DCfg :=
  { inputPlanes := 3, clipCropSize := 224,
    skipTransformation := .preactivatedShortcutTransformation,
    residualTransformation := .preactivatedBottleneckTransformation,
    framesPerClip := 8, numBlocks := [3, 4, 6, 3],
    stemPlanes := 32, stemTemporalKernel := 3, stemSpatialKernel := 5, stemMaxpool := true,
    stagePlanes := 256,
    stageTemporalKernelBasis := [[3], [3, 1], [3, 1], [1, 3]],
    temporalConv1x1 := [true, true, true, true],
    stageTemporalStride := [1, 2, 1, 1], stageSpatialStride := [1, 2, 2, 2],
    numGroups := 1, widthPerGroup := 64,
    zeroInitResidualTransform := true,
    headPoolSize := some (4, 7, 7), numClasses := 400 }

/-- The hyperparameters fixed by the factory `resnext3d_postact_i3d50`. -/
def postactI3D50Cfg : ResNeXt3DCfg :=
  { inputPlanes := 3, clipCropSize := 224,
    skipTransformation := .postactivatedShortcutTransformation,
    residualTransformation := .postactivatedBottleneckTransformation,
    framesPerClip := 8, numBlocks := [3, 4, 6, 3],
    stemPlanes := 64, stemTemporalKernel := 5, stemSpatialKernel := 7, stemMaxpool := true,
    stagePlanes := 256,
    stageTemporalKernelBasis := [[3], [3, 1], [3, 1], [1, 3]],
    temporalConv1x1 := [true, true, true, true],
    stageTemporalStride := [1, 1, 1, 1], stageSpatialStride := [1, 2, 2, 2],
    numGroups := 1, widthPerGroup := 64,
    zeroInitResidualTransform := true,
    headPoolSize := some (8, 7, 7), numClasses := 400 }

/-- A small but constructor-accepted hyperparameter choice whose final stage outputs
4 channels, not the 2048 hard-coded as the head input width. -/
def smallStagePlanesCfg : ResNeXt3DCfg :=
  { inputPlanes := 1, clipCropSize := 4,
    skipTransformation := .preactivatedShortcutTransformation,
    residualTransformation := .preactivatedBottleneckTransformation,
    framesPerClip := 1, numBlocks := [1],
    stemPlanes := 2, stemTemporalKernel := 1, stemSpatialKernel := 1, stemMaxpool := true,
    stagePlanes := 4,
    stageTemporalKernelBasis := [[1]],
    temporalConv1x1 := [true],
    stageTemporalStride := [1], stageSpatialStride := [1],
    numGroups := 1, widthPerGroup := 2,
    zeroInitResidualTransform := true,
    headPoolSize := some (1, 1, 1), numClasses := 10 }

/-- Per-pathway stem denotations and a store for the store-model example. -/
def demoStems : List (Int → Int) := [fun v => v + 1, fun v => v * 2]

/-- A store holding the two-element pathway list at every address. -/
def demoStore : Store Int := fun _ => [5, 7]

lemma chainE_ok {α β : Type} {r : Except ErrK α} {f : α → Except ErrK β} {y : β}
    (h : chainE r f = .ok y) : ∃ x, r = .ok x ∧ f x = .ok y := by
  cases r with
  | error e => simp [chainE] at h
  | ok x => exact ⟨x, rfl, h⟩

lemma chainE_error {α β : Type} {r : Except ErrK α} {f : α → Except ErrK β} {e : ErrK}
    (h : chainE r f = .error e) : r = .error e ∨ ∃ x, r = .ok x ∧ f x = .error e := by
  cases r with
  | error e2 =>
    simp only [chainE, Except.error.injEq] at h
    exact Or.inl (by rw [h])
  | ok x => exact Or.inr ⟨x, rfl, h⟩

lemma pyIndex_error {α : Type} {l : List α} {i : Nat} {e : ErrK}
    (h : pyIndex l i = .error e) : e = .indexError := by
  unfold pyIndex at h
  split at h <;> simp_all

lemma conv3dShape_n {c : Conv3dDesc} {x y : Shape5} (h : conv3dShape c x = .ok y) :
    y.n = x.n := by
  unfold conv3dShape at h
  split at h
  · split at h
    all_goals cases h
    rfl
  · cases h

lemma bnShape_ok {f : Nat} {x y : Shape5} (h : bnShape f x = .ok y) : y = x := by
  unfold bnShape at h
  split at h
  · cases h; rfl
  · cases h

lemma maxPool3dShape_n {x y : Shape5} (h : maxPool3dShape x = .ok y) : y.n = x.n := by
  unfold maxPool3dShape at h
  split at h
  all_goals cases h
  rfl

lemma poolOutDim_pos {d k s p v : Nat} (h : poolOutDim d k s p = .ok v) : 1 ≤ v := by
  unfold poolOutDim at h
  split at h
  · cases h; exact Nat.le_add_left 1 _
  · cases h

lemma avgPool3dShape_ok {ps : Option (Nat × Nat × Nat)} {x y : Shape5}
    (h : avgPool3dShape ps x = .ok y) :
    y.n = x.n ∧ y.c = x.c ∧ 1 ≤ y.t ∧ 1 ≤ y.h ∧ 1 ≤ y.w := by
  unfold avgPool3dShape at h
  split at h
  next kt kh kw =>
    split at h
    next ht hh hw =>
      cases h
      exact ⟨rfl, rfl, poolOutDim_pos ht, poolOutDim_pos hh, poolOutDim_pos hw⟩
    all_goals cases h
  next =>
    cases h
    exact ⟨rfl, rfl, le_refl 1, le_refl 1, le_refl 1⟩

lemma skipForwardShape_n {sk : SkipDesc} {x y : Shape5} (h : skipForwardShape sk x = .ok y) :
    y.n = x.n := by
  cases sk with
  | postact conv bnF =>
    obtain ⟨z, hz, hy⟩ := chainE_ok h
    rw [bnShape_ok hy]
    exact conv3dShape_n hz
  | preact en bnF conv =>
    obtain ⟨z, hz, hy⟩ := chainE_ok h
    have hzx : z.n = x.n := by
      cases en with
      | true =>
        rw [if_pos rfl] at hz
        rw [bnShape_ok hz]
      | false =>
        rw [if_neg (by simp)] at hz
        cases hz; rfl
    rw [conv3dShape_n hy, hzx]

lemma residualForwardShape_n {r : ResidualDesc} {x y : Shape5}
    (h : residualForwardShape r x = .ok y) : y.n = x.n := by
  cases r with
  | postact c2a bn2a c2b bn2b c2c bn2c =>
    obtain ⟨x1, h1, h2⟩ := chainE_ok h
    obtain ⟨x2, h2, h3⟩ := chainE_ok h2
    obtain ⟨x3, h3, h4⟩ := chainE_ok h3
    obtain ⟨x4, h4, h5⟩ := chainE_ok h4
    obtain ⟨x5, h5, h6⟩ := chainE_ok h5
    rw [bnShape_ok h6, conv3dShape_n h5, bnShape_ok h4, conv3dShape_n h3,
      bnShape_ok h2, conv3dShape_n h1]
  | preact dis bn2a c2a bn2b c2b bn2c c2c =>
    obtain ⟨x1, h1, h2⟩ := chainE_ok h
    obtain ⟨x2, h2, h3⟩ := chainE_ok h2
    obtain ⟨x3, h3, h4⟩ := chainE_ok h3
    obtain ⟨x4, h4, h5⟩ := chainE_ok h4
    obtain ⟨x5, h5, h6⟩ := chainE_ok h5
    have hx1 : x1.n = x.n := by
      cases dis with
      | true => rw [if_pos rfl] at h1; cases h1; rfl
      | false => rw [if_neg (by simp)] at h1; rw [bnShape_ok h1]
    rw [conv3dShape_n h6, bnShape_ok h5, conv3dShape_n h4, bnShape_ok h3,
      conv3dShape_n h2, hx1]

lemma resBlockForwardShape_n {debug : Bool} {b : ResBlockDesc} {x y : Shape5}
    (h : resBlockForwardShape debug b x = .ok y) : y.n = x.n := by
  unfold resBlockForwardShape at h
  obtain ⟨skipOut, hs, h2⟩ := chainE_ok h
  obtain ⟨residualOut, hr, h3⟩ := chainE_ok h2
  have hsn : skipOut.n = x.n := by
    cases hb : b.skip with
    | none => rw [hb] at hs; cases hs; rfl
    | some sk => rw [hb] at hs; exact skipForwardShape_n hs
  split at h3
  · cases h3
  · split at h3
    · cases h3; exact hsn
    · cases h3

lemma layerForwardShape_n {debug : Bool} {l : PathwayLayer} {x y : Shape5}
    (h : layerForwardShape debug l x = .ok y) : y.n = x.n := by
  cases l with
  | block b => exact resBlockForwardShape_n h
  | bn f => rw [bnShape_ok h]
  | relu => cases h; rfl

lemma pathwayForwardShape_n {debug : Bool} {ls : List PathwayLayer} {x y : Shape5}
    (h : pathwayForwardShape debug ls x = .ok y) : y.n = x.n := by
  induction ls generalizing x with
  | nil => cases h; rfl
  | cons l ls ih =>
    obtain ⟨z, hz, hy⟩ := chainE_ok h
    rw [ih hy, layerForwardShape_n hz]

lemma resStageForwardShape_n {debug : Bool} {pws : List (List PathwayLayer)}
    {xs ys : List Shape5} {b : Nat} (h : resStageForwardShape debug pws xs = .ok ys)
    (hb : ∀ x ∈ xs, x.n = b) : ∀ y ∈ ys, y.n = b := by
  induction pws generalizing xs ys with
  | nil =>
    cases xs <;> (unfold resStageForwardShape at h; cases h; intro y hy; cases hy)
  | cons pw pws ih =>
    cases xs with
    | nil => unfold resStageForwardShape at h; cases h
    | cons x xs =>
      unfold resStageForwardShape at h
      obtain ⟨z, hz, h2⟩ := chainE_ok h
      split at h2
      · cases h2
      next ys2 hys2 =>
        cases h2
        intro y hy
        cases hy with
        | head =>
          rw [pathwayForwardShape_n hz]
          exact hb x (by simp)
        | tail _ hmem =>
          exact ih hys2 (fun a ha => hb a (by simp [ha])) y hmem

lemma stagesForwardShape_n {debug : Bool} {sts : List ResStageDesc} {xs ys : List Shape5}
    {b : Nat} (h : stagesForwardShape debug sts xs = .ok ys)
    (hb : ∀ x ∈ xs, x.n = b) : ∀ y ∈ ys, y.n = b := by
  induction sts generalizing xs with
  | nil => cases h; exact hb
  | cons st sts ih =>
    obtain ⟨zs, hzs, h2⟩ := chainE_ok h
    exact ih h2 (resStageForwardShape_n hzs hb)

lemma singleStemForwardShape_n {s : SingleStemDesc} {x y : Shape5}
    (h : singleStemForwardShape s x = .ok y) : y.n = x.n := by
  unfold singleStemForwardShape at h
  obtain ⟨x1, h1, h2⟩ := chainE_ok h
  obtain ⟨x2, h2, h3⟩ := chainE_ok h2
  have hx2 : x2.n = x.n := by rw [bnShape_ok h2, conv3dShape_n h1]
  split at h3
  · rw [maxPool3dShape_n h3, hx2]
  · cases h3; exact hx2

lemma multiStemForwardShape_n {bs : List SingleStemDesc} {xs ys : List Shape5} {b : Nat}
    (h : multiStemForwardShape bs xs = .ok ys) (hb : ∀ x ∈ xs, x.n = b) :
    ∀ y ∈ ys, y.n = b := by
  induction xs generalizing bs ys with
  | nil =>
    cases bs <;>
      (unfold multiStemForwardShape at h; cases h; intro y hy; cases hy)
  | cons x xs ih =>
    cases bs with
    | nil => unfold multiStemForwardShape at h; cases h
    | cons s bs =>
      unfold multiStemForwardShape at h
      obtain ⟨z, hz, h2⟩ := chainE_ok h
      split at h2
      · cases h2
      next ys2 hys2 =>
        cases h2
        intro y hy
        cases hy with
        | head =>
          rw [singleStemForwardShape_n hz]
          exact hb x (by simp)
        | tail _ hmem =>
          exact ih hys2 (fun a ha => hb a (by simp [ha])) y hmem

lemma linearLastDim5_eval {l : LinearDesc} {a b c d e : Nat} (h : e = l.inFeatures) :
    linearLastDim l [a, b, c, d, e] = .ok [a, b, c, d, l.outFeatures] := by
  simp [linearLastDim, h]

lemma linearLastDim5 {l : LinearDesc} {a b c d e : Nat} {out : List Nat}
    (h : linearLastDim l [a, b, c, d, e] = .ok out) :
    e = l.inFeatures ∧ out = [a, b, c, d, l.outFeatures] := by
  by_cases hc : e = l.inFeatures
  · rw [linearLastDim5_eval hc] at h
    cases h
    exact ⟨hc, rfl⟩
  · simp [linearLastDim, hc] at h

lemma softmaxShape_ok {dim : Nat} {dims out : List Nat} (h : softmaxShape dim dims = .ok out) :
    out = dims := by
  unfold softmaxShape at h
  split at h
  · cases h; rfl
  · cases h

lemma meanDims123_of_five (a b c d e : Nat) : meanDims [1, 2, 3] [a, b, c, d, e] = [a, e] := rfl

lemma fclForwardShape_ok {f : FCLDesc} {tr : Bool} {y : Shape5} {out : List Nat}
    (h : fullyConvolutionalLinearForwardShape f tr y = .ok out) :
    out = if tr then [y.n, [y.t, y.h, y.w, f.projection.outFeatures].prod]
      else [y.n, [f.projection.outFeatures].prod] := by
  unfold fullyConvolutionalLinearForwardShape at h
  obtain ⟨projected, hp, h2⟩ := chainE_ok h
  obtain ⟨hc, hproj⟩ := linearLastDim5 hp
  subst hproj
  obtain ⟨z, hz, hout⟩ := chainE_ok h2
  cases tr with
  | true =>
    rw [if_pos rfl] at hz
    cases hz
    cases hout
    rfl
  | false =>
    rw [if_neg (by simp)] at hz
    obtain ⟨s, hs, hz2⟩ := chainE_ok hz
    rw [softmaxShape_ok hs] at hz2
    cases hz2
    cases hout
    rfl

lemma headForwardShape_ok {hd : HeadDesc} {tr : Bool} {x : Shape5} {out : List Nat}
    (h : headForwardShape hd tr x = .ok out) :
    ∃ positions, 1 ≤ positions
      ∧ out = [x.n, hd.fcl.projection.outFeatures * positions]
      ∧ (tr = false → positions = 1) := by
  unfold headForwardShape at h
  obtain ⟨pooled, hpool, hf⟩ := chainE_ok h
  obtain ⟨hn, hc, ht, hh, hw⟩ := avgPool3dShape_ok hpool
  have hout := fclForwardShape_ok hf
  cases tr with
  | true =>
    rw [if_pos rfl] at hout
    refine ⟨pooled.t * pooled.h * pooled.w, ?_, ?_, by intro hf2; cases hf2⟩
    · calc 1 = 1 * 1 * 1 := by norm_num
        _ ≤ pooled.t * pooled.h * pooled.w := Nat.mul_le_mul (Nat.mul_le_mul ht hh) hw
    · rw [hout]
      simp only [List.prod_cons, List.prod_nil, List.cons.injEq, and_true]
      exact ⟨hn, by ring⟩
  | false =>
    rw [if_neg (by simp)] at hout
    refine ⟨1, le_refl 1, ?_, fun _ => rfl⟩
    rw [hout]
    simp only [List.prod_cons, List.prod_nil, List.cons.injEq, and_true]
    exact hn

lemma resNeXt3DInit_head {cfg : ResNeXt3DCfg} {m : ResNeXt3DDesc}
    (h : resNeXt3DInit cfg = .ok m) :
    m.head = fullyConvolutionalLinearHeadInit cfg.numClasses 2048 cfg.headPoolSize true := by
  unfold resNeXt3DInit at h
  obtain ⟨stem, hstem, h2⟩ := chainE_ok h
  obtain ⟨stages, hstages, h3⟩ := chainE_ok h2
  cases h3
  rfl

lemma getD_of_get? {α : Type} {l : List α} {i : Nat} {a : α} (d : α)
    (h : l.get? i = some a) : l.getD i d = a := by
  induction l generalizing i with
  | nil => simp at h
  | cons x l ih =>
    cases i with
    | zero =>
      simp only [List.get?] at h
      cases h
      rfl
    | succ i =>
      simp only [List.get?] at h
      simpa [List.getD_cons_succ] using ih h

lemma get?_range_map {β : Type} (f : Nat → β) {L p : Nat} (hp : p < L) :
    ((List.range L).map f).get? p = some (f p) := by
  rw [List.get?_map, List.get?_range hp]
  rfl

lemma length_flatten_replicate (m : Nat) (l : List Nat) :
    (List.flatten (List.replicate m l)).length = m * l.length := by
  induction m with
  | zero => simp
  | succ m ih => simp [List.replicate_succ, ih, Nat.succ_mul, Nat.add_comm]

lemma getD_flatten_replicate {l : List Nat} (hl : l ≠ []) (m : Nat) :
    ∀ i, i < m * l.length →
      (List.flatten (List.replicate m l)).getD i 0 = l.getD (i % l.length) 0 := by
  induction m with
  | zero => intro i hi; simp at hi
  | succ m ih =>
    intro i hi
    rw [List.replicate_succ, List.flatten_cons]
    by_cases hlt : i < l.length
    · rw [List.getD_append _ _ _ _ hlt, Nat.mod_eq_of_lt hlt]
    · have hge : l.length ≤ i := Nat.le_of_not_lt hlt
      have hpos : 0 < l.length := List.length_pos.mpr hl
      rw [List.getD_append_right _ _ _ _ hge]
      rw [ih (i - l.length) (by rw [Nat.succ_mul] at hi; omega)]
      rw [Nat.mod_eq_sub_mod hge]

lemma getD_take {l : List Nat} : ∀ {n i : Nat}, i < n → (l.take n).getD i 0 = l.getD i 0 := by
  induction l with
  | nil => intro n i _; simp
  | cons a l ih =>
    intro n i hi
    cases n with
    | zero => omega
    | succ n =>
      cases i with
      | zero => rfl
      | succ i =>
        simp only [List.take_succ_cons, List.getD_cons_succ]
        exact ih (Nat.lt_of_succ_lt_succ hi)

lemma resBlockInit_ok (dimIn dimOut dimInner tk : Nat) (tc : Bool) (ts ss : Nat)
    (skT : SkipClassName) (residT : ResidualClassName) (ng : Nat) (dpa : Bool) :
    ∃ b, resBlockInit dimIn dimOut dimInner tk tc ts ss skT residT ng dpa = .ok b := by
  unfold resBlockInit
  by_cases hcond : dimIn ≠ dimOut ∨ ss ≠ 1 ∨ ts ≠ 1
  · rw [if_pos hcond]
    cases skT with
    | postactivatedShortcutTransformation =>
      unfold skipCtor postactivatedShortcutInit
      rw [if_pos hcond]
      exact ⟨_, rfl⟩
    | preactivatedShortcutTransformation =>
      unfold skipCtor preactivatedShortcutInit
      rw [if_pos hcond]
      exact ⟨_, rfl⟩
  · rw [if_neg hcond]
    exact ⟨_, rfl⟩

lemma buildBlocksGo_error {skT : SkipClassName} {residT : ResidualClassName}
    {dimIn dimOut dimInner : Nat} {tks : List Nat} {tc : Bool} {ts ss ng : Nat} {dpa : Bool} :
    ∀ r i e, buildBlocksGo skT residT dimIn dimOut dimInner tks tc ts ss ng dpa r i = .error e →
      e = .indexError := by
  intro r
  induction r with
  | zero =>
    intro i e h
    simp [buildBlocksGo] at h
  | succ r ih =>
    intro i e h
    unfold buildBlocksGo at h
    rcases chainE_error h with h1 | ⟨tk, htk, h2⟩
    · exact pyIndex_error h1
    · rcases chainE_error h2 with h3 | ⟨b, hb, h4⟩
      · obtain ⟨b2, hb2⟩ := resBlockInit_ok (if i = 0 then dimIn else dimOut) dimOut dimInner tk
          tc (if i = 0 then ts else 1) (if i = 0 then ss else 1) skT residT ng (dpa && i == 0)
        rw [hb2] at h3
        cases h3
      · cases heq : buildBlocksGo skT residT dimIn dimOut dimInner tks tc ts ss ng dpa r (i + 1)
          with
        | error e2 =>
          rw [heq] at h4
          simp at h4
          rw [← h4]
          exact ih (i + 1) e2 heq
        | ok rest =>
          rw [heq] at h4
          simp at h4

lemma buildPathwaysGo_error {skT : SkipClassName} {residT : ResidualClassName}
    {dimIn dimOut dimInner : List Nat} {tks : List (List Nat)} {tc : List Bool}
    {ts ss nb ng : List Nat} {dpa fs : Bool} :
    ∀ r p e, buildPathwaysGo skT residT dimIn dimOut dimInner tks tc ts ss nb ng dpa fs r p
        = .error e → e = .indexError := by
  intro r
  induction r with
  | zero =>
    intro p e h
    simp [buildPathwaysGo] at h
  | succ r ih =>
    intro p e h
    unfold buildPathwaysGo at h
    rcases chainE_error h with h1 | ⟨blocks, hb, h2⟩
    · exact buildBlocksGo_error _ _ _ h1
    · cases heq : buildPathwaysGo skT residT dimIn dimOut dimInner tks tc ts ss nb ng dpa fs r
          (p + 1) with
      | error e2 =>
        rw [heq] at h2
        simp at h2
        rw [← h2]
        exact ih (p + 1) e2 heq
      | ok rest =>
        rw [heq] at h2
        simp at h2

lemma resStageInit_error {stageIdx : Nat} {dimIn dimOut dimInner : List Nat}
    {tkb : List (List Nat)} {tc : List Bool} {ts ss nb ng : List Nat}
    {skT : SkipClassName} {residT : ResidualClassName} {dpa fs : Bool} {e : ErrK}
    (h : resStageInit stageIdx dimIn dimOut dimInner tkb tc ts ss nb ng skT residT dpa fs
        = .error e) :
    e = .stageLengthMismatch ∨ e = .indexError := by
  unfold resStageInit at h
  split at h
  · cases h
    exact Or.inl rfl
  · cases heq : buildPathwaysGo skT residT dimIn dimOut dimInner
        (temporalKernelSizesOf tkb nb) tc ts ss nb ng dpa fs nb.length 0 with
    | error e2 =>
      rw [heq] at h
      simp at h
      rw [← h]
      exact Or.inr (buildPathwaysGo_error _ _ _ heq)
    | ok pathways =>
      rw [heq] at h
      simp at h

lemma addV_comm (a b : TensorV) : addV a b = addV b a := by
  unfold addV
  induction a generalizing b with
  | nil => cases b <;> simp
  | cons x xs ih =>
    cases b with
    | nil => simp
    | cons y ys =>
      simp only [List.zipWith_cons_cons, List.cons.injEq]
      exact ⟨Int.add_comm x y, ih ys⟩

lemma multiStemApply_ok {α : Type} (blocks : List (α → α)) (xs : List α)
    (h : xs.length ≤ blocks.length) :
    multiStemApply blocks xs = .ok (List.zipWith (fun f a => f a) blocks xs) := by
  induction xs generalizing blocks with
  | nil => cases blocks <;> simp [multiStemApply]
  | cons x xs ih =>
    cases blocks with
    | nil => simp at h
    | cons f fs =>
      unfold multiStemApply
      rw [ih fs (by simpa using h)]
      simp

/-- C1 (amended): the claim as stated fails (see the counterexample: the head's
`in_plane` is hard-coded to 2048 and the head pooling need not reduce to one
position). What holds is: whenever `ResNeXt3D` construction and the forward pass on a
5-dimensional input complete without error, the output is 2-dimensional with first
dimension the input batch size and second dimension `num_classes * positions`, where
`positions ≥ 1` is the number of spatiotemporal positions retained after head pooling;
in inference mode `positions = 1`, and in training mode the output is
`(batch, num_classes)` exactly when the pooling leaves a single position. -/
theorem claim_C1_amended (cfg : ResNeXt3DCfg) (training : Bool) (x : Shape5) (out : List Nat)
    (h : chainE (resNeXt3DInit cfg) (fun m => resNeXt3DForwardShape true training m x)
        = .ok out) :
    ∃ positions, 1 ≤ positions ∧ out = [x.n, cfg.numClasses * positions]
      ∧ (training = false → positions = 1) := by
  obtain ⟨m, hm, hfwd⟩ := chainE_ok h
  unfold resNeXt3DForwardShape at hfwd
  obtain ⟨l1, hl1, h2⟩ := chainE_ok hfwd
  obtain ⟨l2, hl2, h3⟩ := chainE_ok h2
  have hall1 : ∀ s ∈ l1, s.n = x.n := by
    refine multiStemForwardShape_n hl1 ?_
    intro s hs
    simp at hs
    rw [hs]
  have hall2 : ∀ s ∈ l2, s.n = x.n := stagesForwardShape_n hl2 hall1
  cases hg : l2.get? 0 with
  | none =>
    rw [hg] at h3
    cases h3
  | some x0 =>
    rw [hg] at h3
    have hx0 : x0.n = x.n := hall2 x0 (List.get?_mem hg)
    obtain ⟨P, hP1, hPeq, hPtr⟩ := headForwardShape_ok h3
    rw [resNeXt3DInit_head hm] at hPeq
    refine ⟨P, hP1, ?_, hPtr⟩
    rw [hPeq, hx0]
    rfl

/-- C1 (counterexample): a hyperparameter choice accepted by all constructors
(one stage of one block, stage output width 4) for which the forward pass does not
return a `(batch, num_classes)` tensor: it raises a matrix-shape error inside the
head, whose Linear input width is hard-coded to 2048. -/
theorem claim_C1_counterexample :
    chainE (resNeXt3DInit smallStagePlanesCfg)
        (fun m => resNeXt3DForwardShape true true m ⟨1, 1, 1, 4, 4⟩)
      = .error .matmulShapeMismatch := by decide

/-- C1 (witness): the reference pre-activated configuration on a (1,3,8,224,224)
input satisfies the amended statement with positions = 1. -/
theorem claim_C1_witness :
    ∃ positions, 1 ≤ positions ∧ ([1, 400] : List Nat) = [1, 400 * positions]
      ∧ (true = false → positions = 1) :=
  claim_C1_amended preactI3D50Cfg true ⟨1, 3, 8, 224, 224⟩ [1, 400] (by decide)

/-- C2 (code bug): on the post-activated reference configuration with a
(1,3,8,224,224) input, the forward pass raises an AttributeError instead of returning
a (1,400) tensor: the leftover debug statement `print(self.skip.stride)` in
`ResBlock.forward` reads a `stride` attribute that
`PostactivatedShortcutTransformation` never assigns, and the first block of stage 1
has such a projection skip. With the debug prints removed (`debug = false`), the
output shape is (1,400) exactly as the claim states. -/
theorem claim_C2_code_bug :
    chainE (resNeXt3DInit postactI3D50Cfg)
        (fun m => resNeXt3DForwardShape true true m ⟨1, 3, 8, 224, 224⟩)
      = .error .attributeErrorStride
    ∧ chainE (resNeXt3DInit postactI3D50Cfg)
        (fun m => resNeXt3DForwardShape false true m ⟨1, 3, 8, 224, 224⟩)
      = .ok [1, 400] := by
  constructor <;> decide

/-- C3 (code bug): the final stage of the pre-activated reference configuration
(stage index 4, 1024 to 2048 channels, 3 blocks, final_stage = true, pre-activated
bottleneck residual strategy) is built with exactly its 3 residual blocks and NO
trailing normalization+activation pair: the guard
`isinstance(residual_transformation, PreactivatedBottleneckTransformation)` receives
the class object itself, whose type is `type`, so it is always false and the append
branch is dead code, contrary to the claim (and to the source comment above it). -/
theorem claim_C3_code_bug :
    (resStageInit 4 [1024] [2048] [512] [[1, 3]] [true] [1] [2] [3] [1]
        .preactivatedShortcutTransformation .preactivatedBottleneckTransformation
        false true).toOption.map
      (fun d => ((d.pathways.getD 0 []).length, trailingNonBlockCount (d.pathways.getD 0 [])))
      = some (3, 0) := by decide

/-- C4 (code bug): after `resnext3d_postact_i3d50()` construction completes, the
model's only `nn.Linear` (the head projection) still carries the framework default
initialization for both weight and bias, and is not in the state the
`_init_parameter` Linear policy would produce: `_init_parameter` is invoked before
`self.head` is assigned, so `self.modules()` contains no Linear at that time. -/
theorem claim_C4_code_bug :
    (resNeXt3DInit postactI3D50Cfg).toOption.map (fun m => m.head.fcl.projection)
      = some (nnLinearNew 2048 400)
    ∧ nnLinearNew 2048 400 ≠ initLinearPolicy (nnLinearNew 2048 400) := by
  constructor <;> decide

/-- C5: in `ResBlock.__init__` the skip path is a projection module exactly when the
input and output channel counts differ or the temporal or spatial stride differs
from 1, and otherwise it is an identity pass-through; consequently, for a block with
`dim_in = dim_out` and both strides 1, `forward(x) = relu(residual(x) + x)`. -/
theorem claim_C5 (dimIn dimOut temporalStride spatialStride : Nat) (skT : SkipClassName)
    (skF resF : TensorV → TensorV) :
    ((resBlockVInit dimIn dimOut temporalStride spatialStride skT skF resF).skip.isSome
      ↔ (dimIn ≠ dimOut ∨ temporalStride ≠ 1 ∨ spatialStride ≠ 1))
    ∧ (dimIn = dimOut → temporalStride = 1 → spatialStride = 1 → ∀ x,
        resBlockVForward (resBlockVInit dimIn dimOut temporalStride spatialStride skT skF resF) x
          = .ok (reluV (addV (resF x) x))) := by
  constructor
  · unfold resBlockVInit
    by_cases hcond : dimIn ≠ dimOut ∨ spatialStride ≠ 1 ∨ temporalStride ≠ 1
    · rw [if_pos hcond]
      simp only [Option.isSome_some, true_iff]
      tauto
    · rw [if_neg hcond]
      simp only [Option.isSome_none, false_iff]
      tauto
  · intro h1 h2 h3 x
    unfold resBlockVInit
    rw [if_neg (by simp [h1, h2, h3])]
    unfold resBlockVForward
    simp only []
    rw [addV_comm]

/-- C5 (witness): a concrete identity-skip block evaluated on the tensor [1, -2] with
the identity residual denotation. -/
theorem claim_C5_witness :
    resBlockVForward
        (resBlockVInit 4 4 1 1 SkipClassName.preactivatedShortcutTransformation id id) [1, -2]
      = .ok [2, 0] :=
  ((claim_C5 4 4 1 1 SkipClassName.preactivatedShortcutTransformation id id).2
    rfl rfl rfl [1, -2]).trans (by decide)

/-- C6: for a pooled input whose channel count matches the projection width, the
fully-convolutional linear head returns, in training mode, the per-location logits
flattened to `(batch, num_classes * positions)` with `positions = t * h * w`; in
inference mode it applies the softmax on axis 4 (the class axis of the permuted
tensor), means over the three spatiotemporal axes, and flattens, giving
`(batch, num_classes)`; when there is more than one position (and at least one class)
the two modes compute different results on the same pooled input. -/
theorem claim_C6 (dimIn numClasses : Nat) (x : Shape5) (hc : x.c = dimIn) :
    fullyConvolutionalLinearForwardShape (fullyConvolutionalLinearInit dimIn numClasses) true x
      = .ok [x.n, numClasses * (x.t * x.h * x.w)]
    ∧ fullyConvolutionalLinearForwardShape (fullyConvolutionalLinearInit dimIn numClasses)
        false x
      = .ok [x.n, numClasses]
    ∧ (fullyConvolutionalLinearInit dimIn numClasses).softmaxDim = 4
    ∧ (2 ≤ x.t * x.h * x.w → 1 ≤ numClasses →
        fullyConvolutionalLinearForwardShape (fullyConvolutionalLinearInit dimIn numClasses)
            true x
          ≠ fullyConvolutionalLinearForwardShape (fullyConvolutionalLinearInit dimIn numClasses)
            false x) := by
  have hlin := linearLastDim5_eval
    (l := (fullyConvolutionalLinearInit dimIn numClasses).projection)
    (a := x.n) (b := x.t) (c := x.h) (d := x.w) (e := x.c)
    (by simpa [fullyConvolutionalLinearInit, nnLinearNew] using hc)
  have htrue : fullyConvolutionalLinearForwardShape
      (fullyConvolutionalLinearInit dimIn numClasses) true x
      = .ok [x.n, numClasses * (x.t * x.h * x.w)] := by
    unfold fullyConvolutionalLinearForwardShape
    rw [hlin]
    simp only [chainE, if_pos, flattenFrom]
    simp [fullyConvolutionalLinearInit, nnLinearNew]
    ring
  have hfalse : fullyConvolutionalLinearForwardShape
      (fullyConvolutionalLinearInit dimIn numClasses) false x
      = .ok [x.n, numClasses] := by
    unfold fullyConvolutionalLinearForwardShape
    rw [hlin]
    simp only [chainE, Bool.false_eq_true, if_false, softmaxShape, meanDims123_of_five]
    norm_num [flattenFrom, fullyConvolutionalLinearInit, nnLinearNew, meanDims123_of_five]
  refine ⟨htrue, hfalse, rfl, ?_⟩
  intro hpos hnc heq
  rw [htrue, hfalse] at heq
  simp only [Except.ok.injEq, List.cons.injEq, and_true] at heq
  have hge : numClasses * 2 ≤ numClasses * (x.t * x.h * x.w) :=
    Nat.mul_le_mul_left numClasses hpos
  omega

/-- C6 (witness): a pooled input of shape (1,3,2,1,1), 3 input features, 2 classes. -/
theorem claim_C6_witness :
    fullyConvolutionalLinearForwardShape (fullyConvolutionalLinearInit 3 2) true
        ⟨1, 3, 2, 1, 1⟩
      = .ok [1, 2 * (2 * 1 * 1)] :=
  (claim_C6 3 2 ⟨1, 3, 2, 1, 1⟩ rfl).1

/-- C7: for every pathway of a `ResStage` with a nonempty temporal kernel basis, the
derived per-block temporal kernel size list has exactly `num_blocks` entries and its
entry `i` is the basis entry at position `i mod len(basis)` (i.e. the basis pattern
cycled and truncated to the block count); in particular, basis [3,1] with 5 blocks
gives [3,1,3,1,3]. -/
theorem claim_C7 (temporalKernelBasis : List (List Nat)) (numBlocks : List Nat) (p n : Nat)
    (basis : List Nat) (hb : temporalKernelBasis.get? p = some basis)
    (hn : numBlocks.get? p = some n) (hne : basis ≠ []) :
    ((temporalKernelSizesOf temporalKernelBasis numBlocks).getD p []).length = n
    ∧ (∀ i, i < n →
        ((temporalKernelSizesOf temporalKernelBasis numBlocks).getD p []).getD i 0
          = basis.getD (i % basis.length) 0)
    ∧ temporalKernelSizesOf [[3, 1]] [5] = [[3, 1, 3, 1, 3]] := by
  have hp : p < temporalKernelBasis.length := by
    by_contra hnp
    rw [List.get?_eq_none.mpr (Nat.le_of_not_lt hnp)] at hb
    cases hb
  have hone : 1 ≤ basis.length := List.length_pos.mpr hne
  have hbD : temporalKernelBasis.getD p [] = basis := getD_of_get? [] hb
  have hnD : numBlocks.getD p 0 = n := getD_of_get? 0 hn
  have hsel : (temporalKernelSizesOf temporalKernelBasis numBlocks).getD p []
      = (List.flatten (List.replicate n basis)).take n := by
    unfold temporalKernelSizesOf
    rw [getD_of_get? [] (get?_range_map _ hp), hbD, hnD]
  have hlen : ((List.flatten (List.replicate n basis)).take n).length = n := by
    rw [List.length_take, length_flatten_replicate]
    exact Nat.min_eq_left (Nat.le_mul_of_pos_right n hone)
  refine ⟨by rw [hsel, hlen], ?_, by decide⟩
  intro i hi
  rw [hsel, getD_take hi, getD_flatten_replicate hne n i
    (lt_of_lt_of_le hi (Nat.le_mul_of_pos_right n hone))]

/-- C7 (witness): the concrete instance of the claim, basis [3,1] and 5 blocks. -/
theorem claim_C7_witness : temporalKernelSizesOf [[3, 1]] [5] = [[3, 1, 3, 1, 3]] :=
  (claim_C7 [[3, 1]] [5] 0 5 [3, 1] rfl rfl (by decide)).2.2

/-- C8: `ResStage.__init__` raises its ValueError exactly when the nine per-pathway
argument lists do not all have the same length, and `ResNeXt3DStemMultiPathway.__init__`
raises its ValueError exactly when its five per-pathway lists do not all have the
length of `dim_in`; in both constructors the check dominates the sub-module builders
(blocks, single-pathway stems), so a rejected configuration allocates none of them,
and with equal-length lists no such error is raised. -/
theorem claim_C8 (stageIdx : Nat) (dimIn dimOut dimInner : List Nat)
    (tkb : List (List Nat)) (tc : List Bool) (ts ss nb ng : List Nat)
    (skT : SkipClassName) (residT : ResidualClassName) (dpa fs : Bool)
    (sDimIn sDimOut : List Nat) (sKernel sStride sPadding : List (Nat × Nat × Nat)) :
    ((resStageInit stageIdx dimIn dimOut dimInner tkb tc ts ss nb ng skT residT dpa fs
        = .error .stageLengthMismatch)
      ↔ [dimIn.length, dimOut.length, tkb.length, tc.length, ts.length, ss.length,
          nb.length, dimInner.length, ng.length].dedup.length ≠ 1)
    ∧ ((resNeXt3DStemMultiPathwayInit sDimIn sDimOut sKernel sStride sPadding
        = .error .stemLengthMismatch)
      ↔ (sDimIn.length ≠ sDimOut.length ∨ sDimIn.length ≠ sKernel.length ∨
          sDimIn.length ≠ sStride.length ∨ sDimIn.length ≠ sPadding.length)) := by
  constructor
  · constructor
    · intro h
      by_contra hok
      unfold resStageInit at h
      rw [if_neg (fun hne => hne hok)] at h
      cases heq : buildPathwaysGo skT residT dimIn dimOut dimInner
          (temporalKernelSizesOf tkb nb) tc ts ss nb ng dpa fs nb.length 0 with
      | error e2 =>
        rw [heq] at h
        simp at h
        have hidx := buildPathwaysGo_error _ _ _ heq
        rw [h] at hidx
        cases hidx
      | ok pws =>
        rw [heq] at h
        simp at h
    · intro hmis
      unfold resStageInit
      rw [if_pos hmis]
  · unfold resNeXt3DStemMultiPathwayInit
    by_cases hcond : sDimIn.length ≠ sDimOut.length ∨ sDimIn.length ≠ sKernel.length ∨
        sDimIn.length ≠ sStride.length ∨ sDimIn.length ≠ sPadding.length
    · rw [if_pos hcond]
      exact iff_of_true rfl hcond
    · rw [if_neg hcond]
      exact iff_of_false (by simp) hcond

/-- C8 (witness): a stage whose dim_out list has length 2 while all other lists have
length 1 is rejected with the length-mismatch ValueError. -/
theorem claim_C8_witness :
    resStageInit 1 [2] [4, 5] [2] [[1]] [true] [1] [1] [1] [1]
        SkipClassName.postactivatedShortcutTransformation
        ResidualClassName.postactivatedBottleneckTransformation false false
      = .error .stageLengthMismatch :=
  (claim_C8 1 [2] [4, 5] [2] [[1]] [true] [1] [1] [1] [1]
    SkipClassName.postactivatedShortcutTransformation
    ResidualClassName.postactivatedBottleneckTransformation false false
    [1] [1] [(1, 1, 1)] [(1, 2, 2)] [(0, 0, 0)]).1.mpr (by decide)

/-- C9: both skip-transformation constructors fail their assertion exactly when no
projection is needed (same channels and both strides 1); `ResBlock.__init__` only
invokes the skip constructor under the very condition the assertion checks, so block
construction always succeeds, and a `ResStage` never propagates an assertion
failure. -/
theorem claim_C9 (dimIn dimOut temporalStride spatialStride : Nat) (dpa : Bool)
    (dimInner tk : Nat) (tc : Bool) (skT : SkipClassName) (residT : ResidualClassName)
    (ng : Nat) (stageIdx : Nat) (sDimIn sDimOut sDimInner : List Nat)
    (tkb : List (List Nat)) (stc : List Bool) (sts sss snb sng : List Nat) (fs : Bool) :
    ((postactivatedShortcutInit dimIn dimOut temporalStride spatialStride
        = .error .assertionError)
      ↔ ¬(dimIn ≠ dimOut ∨ spatialStride ≠ 1 ∨ temporalStride ≠ 1))
    ∧ ((preactivatedShortcutInit dimIn dimOut temporalStride spatialStride dpa
        = .error .assertionError)
      ↔ ¬(dimIn ≠ dimOut ∨ spatialStride ≠ 1 ∨ temporalStride ≠ 1))
    ∧ (∃ b, resBlockInit dimIn dimOut dimInner tk tc temporalStride spatialStride skT residT
        ng dpa = .ok b)
    ∧ resStageInit stageIdx sDimIn sDimOut sDimInner tkb stc sts sss snb sng skT residT
        dpa fs ≠ .error .assertionError := by
  refine ⟨?_, ?_, resBlockInit_ok dimIn dimOut dimInner tk tc temporalStride spatialStride
    skT residT ng dpa, ?_⟩
  · unfold postactivatedShortcutInit
    by_cases hcond : dimIn ≠ dimOut ∨ spatialStride ≠ 1 ∨ temporalStride ≠ 1
    · rw [if_pos hcond]
      exact iff_of_false (by simp) (not_not.mpr hcond)
    · rw [if_neg hcond]
      exact iff_of_true rfl hcond
  · unfold preactivatedShortcutInit
    by_cases hcond : dimIn ≠ dimOut ∨ spatialStride ≠ 1 ∨ temporalStride ≠ 1
    · rw [if_pos hcond]
      exact iff_of_false (by simp) (not_not.mpr hcond)
    · rw [if_neg hcond]
      exact iff_of_true rfl hcond
  · intro h
    rcases resStageInit_error h with h1 | h1 <;> cases h1

/-- C9 (witness): for equal channels and unit strides the post-activated shortcut
constructor fails its assertion; the corresponding block construction nevertheless
succeeds because `ResBlock.__init__` picks the identity skip there. -/
theorem claim_C9_witness :
    (postactivatedShortcutInit 4 4 1 1 = .error .assertionError ↔ ¬(4 ≠ 4 ∨ 1 ≠ 1 ∨ 1 ≠ 1))
    ∧ ∃ b, resBlockInit 4 4 2 1 true 1 1 SkipClassName.postactivatedShortcutTransformation
        ResidualClassName.postactivatedBottleneckTransformation 1 false = .ok b := by
  have h := claim_C9 4 4 1 1 false 2 1 true
    SkipClassName.postactivatedShortcutTransformation
    ResidualClassName.postactivatedBottleneckTransformation 1 1 [4] [4] [2] [[1]] [true]
    [1] [1] [1] [1] false
  exact ⟨h.1, h.2.2.1⟩

/-- C10: the multi-pathway stem forward mutates the passed-in list object in place,
overwriting element `p` with the output of stem `p` on that element, and returns the
very same list reference; every other list object in the store is untouched, so a
caller's retained reference to the argument observes the stem outputs. -/
theorem claim_C10 {α : Type} (blocks : List (α → α)) (σ : Store α) (r : Nat)
    (h : (σ r).length ≤ blocks.length) :
    ∃ σ2, multiStemForwardStore blocks σ r = .ok (σ2, r)
      ∧ σ2 r = List.zipWith (fun f a => f a) blocks (σ r)
      ∧ ∀ q, q ≠ r → σ2 q = σ q := by
  refine ⟨storeUpdate σ r (List.zipWith (fun f a => f a) blocks (σ r)), ?_, ?_, ?_⟩
  · unfold multiStemForwardStore
    rw [multiStemApply_ok blocks (σ r) h]
  · unfold storeUpdate
    simp
  · intro q hq
    unfold storeUpdate
    simp [hq]

/-- C10 (witness): two pathway stems applied to the list [5, 7] stored at address 0. -/
theorem claim_C10_witness :
    ∃ σ2, multiStemForwardStore demoStems demoStore 0 = .ok (σ2, 0)
      ∧ σ2 0 = List.zipWith (fun f a => f a) demoStems (demoStore 0)
      ∧ ∀ q, q ≠ 0 → σ2 q = demoStore q :=
  claim_C10 demoStems demoStore 0 (by decide)
